import Mathlib

/-!
Verification of the raster-extent-expansion core of `expandRaster.py`
(`add_rows_or_cols`, `update_extent`).

The shallow embedding models:
* a raster grid (`numpy` 2-D array of band values) as a rectangular
  `List (List Int)`;
* the rasterio affine transform as a record of six rational components
  `(a, b, c, d, e, f)` matching `transform[0] .. transform[5]`;
* the metadata dictionary as a record carrying the fields the script
  reads or writes (`transform`, `width`, `height`, `dtype`); all other
  driver fields are passed through untouched by the code and are omitted;
* real (float) coordinate arithmetic as exact rational arithmetic.
-/

namespace ExpandRaster

/-- A raster band: a list of rows, each row a list of cell values. -/
abbrev Grid : Type := List (List Int)

/-- Model of `ary.shape[0]`: number of rows. -/
def shape0 (g : Grid) : Nat := g.length

/-- Model of `ary.shape[1]`: number of columns, read off the first row
(numpy arrays are rectangular, so this is the common row length). -/
def shape1 (g : Grid) : Nat := (g.headD []).length

/-- The six components of a `rasterio.Affine`, in the order
`transform[0] .. transform[5]`: x cell size `a`, row shear `b`,
x origin `c`, column shear `d`, y cell size `e` (negative for
north-up rasters), y origin `f`. -/
structure Affine where
  a : ℚ
  b : ℚ
  c : ℚ
  d : ℚ
  e : ℚ
  f : ℚ
deriving DecidableEq, Repr

/-- The metadata dictionary fields that `expandRaster.py` reads or
writes. Driver fields (`crs`, `count`, `nodata`, ...) flow through the
script untouched. -/
structure Meta where
  transform : Affine
  width : Nat
  height : Nat
  dtype : String
deriving DecidableEq, Repr

/-- Model of `rasterio.transform.from_bounds(west, south, east, north, width, height)`:
`Affine((east-west)/width, 0, west, 0, -(north-south)/height, north)`.
The script passes the extent sizes, not pixel counts, as `width`/`height`,
so the derived cell sizes come out as 1 — they are overwritten right after. -/
def trans_fb (west south east north width height : ℚ) : Affine :=
  ⟨(east - west) / width, 0, west, 0, -((north - south) / height), north⟩

/-- One iteration of the `for n in range(numToAdd)` loop body:
the running array together with the four running bounds. -/
structure LoopState where
  ary : Grid
  xmin : ℚ
  ymin : ℚ
  xmax : ℚ
  ymax : ℚ

/-- Model of `np.insert(ary, ary.shape[0], vals, axis=0)` and
`np.insert(ary, 0, vals, axis=0)` with `vals = [fillVal]*ary.shape[1]`. -/
def insertRow (g : Grid) (isEnd : Bool) (fill : Int) : Grid :=
  let vals := List.replicate (shape1 g) fill
  if isEnd then g ++ [vals] else vals :: g

/-- Model of `np.insert(ary, [ary.shape[1]], vals, axis=1)` and
`np.insert(ary, [0], vals, axis=1)` with `vals = [[fillVal]]*ary.shape[0]`:
one `fillVal` appended (resp. prepended) to every row. -/
def insertCol (g : Grid) (isEnd : Bool) (fill : Int) : Grid :=
  if isEnd then g.map (fun r => r ++ [fill]) else g.map (fun r => fill :: r)

/-- The loop body of `add_rows_or_cols`: insert one line and shift the
corresponding bound by one cell size. -/
def expandStep (isRows isEnd : Bool) (fill : Int) (cellSize : ℚ)
    (s : LoopState) : LoopState :=
  if isRows then
    if isEnd then
      { s with ary := insertRow s.ary true fill, ymin := s.ymin - cellSize }
    else
      { s with ary := insertRow s.ary false fill, ymax := s.ymax + cellSize }
  else
    if isEnd then
      { s with ary := insertCol s.ary true fill, xmax := s.xmax + cellSize }
    else
      { s with ary := insertCol s.ary false fill, xmin := s.xmin - cellSize }

/-- Model of `add_rows_or_cols(ary, isRows, numToAdd, isEnd, fillVal, meta)` from
`expandRaster.py`: read `cellSize`, `xmin`, `ymax` from the transform,
derive `xmax`, `ymin`, run the insertion loop `numToAdd` times, rebuild
the affine from the updated bounds, force its cell-size components back
to `(cellSize, -cellSize)`, and write `transform`/`height`/`width` back
into the metadata. -/
def add_rows_or_cols (ary : Grid) (isRows : Bool) (numToAdd : Nat)
    (isEnd : Bool) (fillVal : Int) (meta : Meta) : Grid × Meta :=
  let cellSize := meta.transform.a
  let xmin := meta.transform.c
  let ymax := meta.transform.f
  let xmax := xmin + cellSize * meta.width
  let ymin := ymax - cellSize * meta.height
  let s := (expandStep isRows isEnd fillVal cellSize)^[numToAdd]
    ⟨ary, xmin, ymin, xmax, ymax⟩
  let aff := trans_fb s.xmin s.ymin s.xmax s.ymax (s.xmax - s.xmin)
    (s.ymax - s.ymin)
  let aff : Affine := ⟨cellSize, aff.b, aff.c, aff.d, -cellSize, aff.f⟩
  (s.ary,
   { meta with transform := aff, height := shape0 s.ary, width := shape1 s.ary })

/-- Well-formed grid/metadata pair, the state produced by the loader
(§3 of the spec): the metadata's pixel counts agree with the grid shape,
the grid is rectangular and non-degenerate, and the transform is the
north-up shear-free transform of a square-pixel raster
(`b = d = 0`, `e = -a`). -/
def WF (g : Grid) (m : Meta) : Prop :=
  m.height = shape0 g ∧ m.width = shape1 g ∧
  (∀ r ∈ g, r.length = shape1 g) ∧
  m.transform.b = 0 ∧ m.transform.d = 0 ∧
  m.transform.e = -m.transform.a ∧
  0 < shape0 g ∧ 0 < shape1 g

instance (g : Grid) (m : Meta) : Decidable (WF g m) := by
  unfold WF
  infer_instance

/-- The line insertion selected by `isRows`/`isEnd` in the loop body. -/
def lineIns (isRows isEnd : Bool) (fill : Int) (g : Grid) : Grid :=
  if isRows then insertRow g isEnd fill else insertCol g isEnd fill

/-- One axis entry of the `dimensions` dictionary built by
`get_user_input`: `toAdd`, `end`, `fill`. -/
structure Req where
  toAdd : Nat
  isEnd : Bool
  fill : Int
deriving DecidableEq, Repr

/-- The `dimensions` dictionary: an optional `rows` entry and an optional
`columns` entry (each key exists only if the user asked for that axis). -/
abbrev Plan : Type := Option Req × Option Req

/-- Model of `len(dimensions)`. -/
def planSize (p : Plan) : Nat :=
  (if p.1.isSome then 1 else 0) + (if p.2.isSome then 1 else 0)

/-- A numpy array as seen by `update_extent`: its 2-D data together with
its runtime `dtype` tag. -/
structure Ary where
  data : Grid
  dtype : String
deriving DecidableEq, Repr

/-- How one invocation of `update_extent` can end. `sys.exit` calls,
uncaught exceptions and the final `write_ras` are each a distinct
terminal outcome; only `written` produces an output file. -/
inductive Outcome where
  | exitNoPlan : Outcome
  | keyError : String → Outcome
  | exitInvalidDims : Nat × Nat → Nat × Nat → Outcome
  | exitUnsupportedDtype : String → Outcome
  | written : Ary → Meta → Outcome
deriving DecidableEq, Repr

/-- Two's-complement wrap-around of `numpy.astype` to a signed `bits`-bit
integer type. -/
def wrapInt (bits : Nat) (v : Int) : Int :=
  (v + 2 ^ (bits - 1)) % 2 ^ bits - 2 ^ (bits - 1)

/-- Model of `ary.astype` to a signed integer type: every cell wrapped into the signed
`bits`-bit range and the runtime dtype tag updated. -/
def astype (bits : Nat) (a : Ary) : Ary :=
  ⟨a.data.map (List.map (wrapInt bits)), "int" ++ toString bits⟩

/-- The expansion stage of `update_extent` (lines 150-158): apply
`add_rows_or_cols` for the `rows` entry if present, then for the
`columns` entry if present. `np.insert` keeps the array's runtime dtype,
so the dtype tag is carried through unchanged. -/
def expandPlan (plan : Plan) (ary : Ary) (meta : Meta) : Ary × Meta :=
  let p1 : Ary × Meta :=
    match plan.1 with
    | some r =>
        let res := add_rows_or_cols ary.data true r.toAdd r.isEnd r.fill meta
        (Ary.mk res.1 ary.dtype, res.2)
    | none => (ary, meta)
  match plan.2 with
  | some r =>
      let res := add_rows_or_cols p1.1.data false r.toAdd r.isEnd r.fill p1.2
      (Ary.mk res.1 p1.1.dtype, res.2)
  | none => p1

/-- The dtype-reconciliation and write stage of `update_extent` (lines
167-184): if the declared dtype disagrees with the runtime dtype, coerce
for `int8`/`int16`/`int32` and otherwise exit reporting the unhandled
dtype; then write. -/
def reconcile_dtype (pm : Ary × Meta) : Outcome :=
  if pm.2.dtype ≠ pm.1.dtype then
    if pm.2.dtype = "int8" then Outcome.written (astype 8 pm.1) pm.2
    else if pm.2.dtype = "int16" then Outcome.written (astype 16 pm.1) pm.2
    else if pm.2.dtype = "int32" then Outcome.written (astype 32 pm.1) pm.2
    else Outcome.exitUnsupportedDtype pm.2.dtype
  else Outcome.written pm.1 pm.2

/-- Model of `update_extent` with the interactive `get_user_input` and the file
I/O at the boundary replaced by explicit arguments and outcomes: abort if
the plan is empty, record the starting shape, expand per plan, then run
the validation of line 161 with Python's left-to-right short-circuit
evaluation — `dimensions['rows']` is read first and unconditionally, and
`dimensions['columns']` is read whenever the row delta check passes, so a
missing key raises `KeyError` at that point — and finally reconcile the
dtype and write. -/
def update_extent (plan : Plan) (ary : Ary) (meta : Meta) : Outcome :=
  if planSize plan = 0 then Outcome.exitNoPlan
  else
    let shp := (shape0 ary.data, shape1 ary.data)
    let pm := expandPlan plan ary meta
    let endShp := (shape0 pm.1.data, shape1 pm.1.data)
    match plan.1 with
    | none => Outcome.keyError "rows"
    | some r =>
      if (endShp.1 : Int) - (shp.1 : Int) ≠ (r.toAdd : Int) then
        Outcome.exitInvalidDims shp endShp
      else
        match plan.2 with
        | none => Outcome.keyError "columns"
        | some c =>
          if (endShp.2 : Int) - (shp.2 : Int) ≠ (c.toAdd : Int) then
            Outcome.exitInvalidDims shp endShp
          else reconcile_dtype pm

/-- One call in a sequence of `add_rows_or_cols` invocations. -/
structure Call where
  isRows : Bool
  numToAdd : Nat
  isEnd : Bool
  fill : Int
deriving DecidableEq, Repr

/-- Thread a grid/metadata pair through a sequence of
`add_rows_or_cols` calls. -/
def runCalls (calls : List Call) (g : Grid) (m : Meta) : Grid × Meta :=
  calls.foldl
    (fun p c => add_rows_or_cols p.1 c.isRows c.numToAdd c.isEnd c.fill p.2)
    (g, m)

/-- A heap of metadata dictionaries, addressed by reference: Python
passes `meta` by object reference. -/
abbrev Store : Type := Nat → Meta

/-- Reference-level reading of `add_rows_or_cols`: the caller hands over
a reference `r` into `store`; `meta.update({...})` (line 71) mutates the
dictionary behind `r` in place, and `return ary, meta` (line 77) returns
that same reference. -/
def add_rows_or_cols_ref (ary : Grid) (isRows : Bool) (numToAdd : Nat)
    (isEnd : Bool) (fillVal : Int) (store : Store) (r : Nat) :
    (Grid × Nat) × Store :=
  let res := add_rows_or_cols ary isRows numToAdd isEnd fillVal (store r)
  ((res.1, r), Function.update store r res.2)

/-- The 4x4 grid of value 1 from the spec's concrete scenario. -/
def grid4 : Grid := List.replicate 4 (List.replicate 4 (1 : Int))

/-- Metadata for `grid4`: cell size 10, bounds (0,0)-(40,40). -/
def meta4 : Meta :=
  { transform := ⟨10, 0, 0, 0, -10, 40⟩, width := 4, height := 4, dtype := "int8" }

/-- A 1x1 grid used to exhibit the order-dependence of mixed-axis
expansion with different fill values. -/
def gridC : Grid := [[1]]

/-- Metadata for `gridC`: cell size 10, bounds (0,0)-(10,10). -/
def metaC : Meta :=
  { transform := ⟨10, 0, 0, 0, -10, 10⟩, width := 1, height := 1, dtype := "int8" }

set_option linter.unusedTactic false in
lemma expandStep_iterate (isRows isEnd : Bool) (fill : Int) (cs : ℚ) (n : Nat)
    (s : LoopState) :
    (expandStep isRows isEnd fill cs)^[n] s =
      ⟨(lineIns isRows isEnd fill)^[n] s.ary,
       s.xmin - (if isRows = false ∧ isEnd = false then (n : ℚ) * cs else 0),
       s.ymin - (if isRows = true ∧ isEnd = true then (n : ℚ) * cs else 0),
       s.xmax + (if isRows = false ∧ isEnd = true then (n : ℚ) * cs else 0),
       s.ymax + (if isRows = true ∧ isEnd = false then (n : ℚ) * cs else 0)⟩ := by
  induction n with
  | zero => simp
  | succ n ih =>
    rw [Function.iterate_succ_apply', Function.iterate_succ_apply', ih]
    cases isRows <;> cases isEnd <;>
      simp [expandStep, lineIns, LoopState.mk.injEq] <;> push_cast <;> ring

/-- Closed form of `add_rows_or_cols`: the returned grid is `numToAdd`
line insertions, and the returned transform is the original one with
shear zeroed, y cell size forced to `-a`, and the origin shifted only
for a "start" edge. -/
lemma add_rows_or_cols_eq (ary : Grid) (isRows : Bool) (n : Nat) (isEnd : Bool)
    (fill : Int) (meta : Meta) :
    add_rows_or_cols ary isRows n isEnd fill meta =
      ((lineIns isRows isEnd fill)^[n] ary,
       { transform :=
           ⟨meta.transform.a, 0,
            meta.transform.c -
              (if isRows = false ∧ isEnd = false then (n : ℚ) * meta.transform.a else 0),
            0, -meta.transform.a,
            meta.transform.f +
              (if isRows = true ∧ isEnd = false then (n : ℚ) * meta.transform.a else 0)⟩,
         width := shape1 ((lineIns isRows isEnd fill)^[n] ary),
         height := shape0 ((lineIns isRows isEnd fill)^[n] ary),
         dtype := meta.dtype }) := by
  simp only [add_rows_or_cols, expandStep_iterate]
  rfl

/-- Specialization of `add_rows_or_cols` for rows at the end: grid rows appended, origin
components untouched. -/
lemma add_rows_end_eq (ary : Grid) (n : Nat) (fill : Int) (meta : Meta) :
    add_rows_or_cols ary true n true fill meta =
      ((fun g => insertRow g true fill)^[n] ary,
       { transform :=
           ⟨meta.transform.a, 0, meta.transform.c, 0, -meta.transform.a,
            meta.transform.f⟩,
         width := shape1 ((fun g => insertRow g true fill)^[n] ary),
         height := shape0 ((fun g => insertRow g true fill)^[n] ary),
         dtype := meta.dtype }) := by
  rw [add_rows_or_cols_eq]
  norm_num [lineIns]
  exact ⟨rfl, rfl, rfl⟩

/-- Specialization of `add_rows_or_cols` for rows at the start: grid rows prepended, `f`
(the maximum Y) raised by `n * cellSize`. -/
lemma add_rows_start_eq (ary : Grid) (n : Nat) (fill : Int) (meta : Meta) :
    add_rows_or_cols ary true n false fill meta =
      ((fun g => insertRow g false fill)^[n] ary,
       { transform :=
           ⟨meta.transform.a, 0, meta.transform.c, 0, -meta.transform.a,
            meta.transform.f + (n : ℚ) * meta.transform.a⟩,
         width := shape1 ((fun g => insertRow g false fill)^[n] ary),
         height := shape0 ((fun g => insertRow g false fill)^[n] ary),
         dtype := meta.dtype }) := by
  rw [add_rows_or_cols_eq]
  norm_num [lineIns]
  exact ⟨rfl, rfl, rfl⟩

/-- Specialization of `add_rows_or_cols` for columns at the end: columns appended, origin
components untouched. -/
lemma add_cols_end_eq (ary : Grid) (n : Nat) (fill : Int) (meta : Meta) :
    add_rows_or_cols ary false n true fill meta =
      ((fun g => insertCol g true fill)^[n] ary,
       { transform :=
           ⟨meta.transform.a, 0, meta.transform.c, 0, -meta.transform.a,
            meta.transform.f⟩,
         width := shape1 ((fun g => insertCol g true fill)^[n] ary),
         height := shape0 ((fun g => insertCol g true fill)^[n] ary),
         dtype := meta.dtype }) := by
  rw [add_rows_or_cols_eq]
  norm_num [lineIns]
  exact ⟨rfl, rfl, rfl⟩

/-- Specialization of `add_rows_or_cols` for columns at the start: columns prepended, `c`
(the minimum X) lowered by `n * cellSize`. -/
lemma add_cols_start_eq (ary : Grid) (n : Nat) (fill : Int) (meta : Meta) :
    add_rows_or_cols ary false n false fill meta =
      ((fun g => insertCol g false fill)^[n] ary,
       { transform :=
           ⟨meta.transform.a, 0, meta.transform.c - (n : ℚ) * meta.transform.a,
            0, -meta.transform.a, meta.transform.f⟩,
         width := shape1 ((fun g => insertCol g false fill)^[n] ary),
         height := shape0 ((fun g => insertCol g false fill)^[n] ary),
         dtype := meta.dtype }) := by
  rw [add_rows_or_cols_eq]
  norm_num [lineIns]
  exact ⟨rfl, rfl, rfl⟩

lemma shape0_insertRow (g : Grid) (e : Bool) (v : Int) :
    shape0 (insertRow g e v) = shape0 g + 1 := by
  cases e <;> simp [insertRow, shape0]

lemma shape1_insertRow (g : Grid) (e : Bool) (v : Int) :
    shape1 (insertRow g e v) = shape1 g := by
  cases e <;> cases g <;> simp [insertRow, shape1]

lemma shape0_insertCol (g : Grid) (e : Bool) (v : Int) :
    shape0 (insertCol g e v) = shape0 g := by
  cases e <;> simp [insertCol, shape0]

lemma shape1_insertCol (g : Grid) (e : Bool) (v : Int) (h : g ≠ []) :
    shape1 (insertCol g e v) = shape1 g + 1 := by
  cases g with
  | nil => exact absurd rfl h
  | cons r t => cases e <;> simp [insertCol, shape1]

lemma insertRow_ne_nil (g : Grid) (e : Bool) (v : Int) : insertRow g e v ≠ [] := by
  cases e <;> simp [insertRow]

lemma insertCol_ne_nil (g : Grid) (e : Bool) (v : Int) (h : g ≠ []) :
    insertCol g e v ≠ [] := by
  cases e <;> simpa [insertCol]

lemma shape0_iterate_insertRow (e : Bool) (v : Int) (n : Nat) (g : Grid) :
    shape0 ((fun g => insertRow g e v)^[n] g) = shape0 g + n := by
  induction n with
  | zero => rfl
  | succ n ih => rw [Function.iterate_succ_apply', shape0_insertRow, ih]; ring

lemma shape1_iterate_insertRow (e : Bool) (v : Int) (n : Nat) (g : Grid) :
    shape1 ((fun g => insertRow g e v)^[n] g) = shape1 g := by
  induction n with
  | zero => rfl
  | succ n ih => rw [Function.iterate_succ_apply', shape1_insertRow, ih]

lemma shape0_iterate_insertCol (e : Bool) (v : Int) (n : Nat) (g : Grid) :
    shape0 ((fun g => insertCol g e v)^[n] g) = shape0 g := by
  induction n with
  | zero => rfl
  | succ n ih => rw [Function.iterate_succ_apply', shape0_insertCol, ih]

lemma iterate_insertRow_ne_nil (e : Bool) (v : Int) (n : Nat) (g : Grid)
    (h : g ≠ []) : (fun g => insertRow g e v)^[n] g ≠ [] := by
  cases n with
  | zero => exact h
  | succ n => rw [Function.iterate_succ_apply']; exact insertRow_ne_nil _ e v

lemma iterate_insertCol_ne_nil (e : Bool) (v : Int) (n : Nat) (g : Grid)
    (h : g ≠ []) : (fun g => insertCol g e v)^[n] g ≠ [] := by
  induction n with
  | zero => exact h
  | succ n ih => rw [Function.iterate_succ_apply']; exact insertCol_ne_nil _ e v ih

lemma shape1_iterate_insertCol (e : Bool) (v : Int) (n : Nat) (g : Grid)
    (h : g ≠ []) : shape1 ((fun g => insertCol g e v)^[n] g) = shape1 g + n := by
  induction n with
  | zero => rfl
  | succ n ih =>
    rw [Function.iterate_succ_apply',
      shape1_insertCol _ e v (iterate_insertCol_ne_nil e v n g h), ih]
    ring

end ExpandRaster

namespace ExpandRaster

/-- C1: expanding rows at the end by `count` adds `count` rows, keeps the
grid width, the metadata width and the transform's cell size, and moves the
minimum Y bound (`transform.f - cellSize * height`) down by
`count * cellSize`. The two hypotheses are the loader-established data-model
invariant that the metadata pixel counts agree with the grid shape (§3). -/
theorem add_rows_end_extends_south (ary : Grid) (n : Nat) (fill : Int)
    (meta : Meta) (hh : meta.height = shape0 ary) (hw : meta.width = shape1 ary) :
    shape0 (add_rows_or_cols ary true n true fill meta).1 = shape0 ary + n ∧
    shape1 (add_rows_or_cols ary true n true fill meta).1 = shape1 ary ∧
    (add_rows_or_cols ary true n true fill meta).2.width = meta.width ∧
    (add_rows_or_cols ary true n true fill meta).2.transform.a = meta.transform.a ∧
    (add_rows_or_cols ary true n true fill meta).2.height =
      shape0 (add_rows_or_cols ary true n true fill meta).1 ∧
    (add_rows_or_cols ary true n true fill meta).2.transform.f -
        (add_rows_or_cols ary true n true fill meta).2.transform.a *
          (add_rows_or_cols ary true n true fill meta).2.height =
      (meta.transform.f - meta.transform.a * meta.height) -
        (n : ℚ) * meta.transform.a := by
  rw [add_rows_end_eq]
  refine ⟨shape0_iterate_insertRow _ _ _ _, shape1_iterate_insertRow _ _ _ _,
    by rw [hw, shape1_iterate_insertRow], rfl, rfl, ?_⟩
  simp only [shape0_iterate_insertRow, hh]
  push_cast
  ring

/-- Witness for `add_rows_end_extends_south` at the spec's 4x4 example. -/
theorem add_rows_end_extends_south_witness :
    meta4.height = shape0 grid4 ∧ meta4.width = shape1 grid4 ∧
    (shape0 (add_rows_or_cols grid4 true 2 true (-128) meta4).1 = shape0 grid4 + 2 ∧
     shape1 (add_rows_or_cols grid4 true 2 true (-128) meta4).1 = shape1 grid4 ∧
     (add_rows_or_cols grid4 true 2 true (-128) meta4).2.width = meta4.width ∧
     (add_rows_or_cols grid4 true 2 true (-128) meta4).2.transform.a = meta4.transform.a ∧
     (add_rows_or_cols grid4 true 2 true (-128) meta4).2.height =
       shape0 (add_rows_or_cols grid4 true 2 true (-128) meta4).1 ∧
     (add_rows_or_cols grid4 true 2 true (-128) meta4).2.transform.f -
         (add_rows_or_cols grid4 true 2 true (-128) meta4).2.transform.a *
           (add_rows_or_cols grid4 true 2 true (-128) meta4).2.height =
       (meta4.transform.f - meta4.transform.a * meta4.height) -
         (2 : ℚ) * meta4.transform.a) :=
  ⟨rfl, rfl, add_rows_end_extends_south grid4 2 (-128) meta4 rfl rfl⟩

/-- C3: `count = 0` is a no-op for every axis/edge/fill combination: on a
well-formed grid/metadata pair the returned grid and metadata are equal to
the inputs (the embedding is total, so no exception is possible). -/
theorem add_zero_is_noop (ary : Grid) (isRows isEnd : Bool) (fill : Int)
    (meta : Meta) (hwf : WF ary meta) :
    add_rows_or_cols ary isRows 0 isEnd fill meta = (ary, meta) := by
  obtain ⟨hh, hw, -, hb, hd, he, -, -⟩ := hwf
  rw [add_rows_or_cols_eq]
  simp only [Function.iterate_zero, id_eq, Nat.cast_zero, zero_mul, ite_self,
    sub_zero, add_zero]
  cases meta with
  | mk t w h d =>
    cases t
    simp_all [Meta.mk.injEq, Affine.mk.injEq]

/-- Witness for `add_zero_is_noop` at the spec's 4x4 example. -/
theorem add_zero_is_noop_witness :
    WF grid4 meta4 ∧
    add_rows_or_cols grid4 false 0 false 7 meta4 = (grid4, meta4) :=
  ⟨by decide, add_zero_is_noop grid4 false false 7 meta4 (by decide)⟩

/-- C4: for every call, the returned transform's cell-size components are
the input cell size bit-for-bit (`a' = a`, `e' = -a`), and apart from the
origin components (`c`, `f`) and the pixel counts nothing in the metadata
changes (for the shear-free north-up transforms of the data model:
`b = d = 0`, `e = -a`). -/
theorem cellsize_survives_expansion (ary : Grid) (isRows : Bool) (n : Nat)
    (isEnd : Bool) (fill : Int) (meta : Meta)
    (hb : meta.transform.b = 0) (hd : meta.transform.d = 0)
    (he : meta.transform.e = -meta.transform.a) :
    (add_rows_or_cols ary isRows n isEnd fill meta).2.transform.a = meta.transform.a ∧
    (add_rows_or_cols ary isRows n isEnd fill meta).2.transform.e = -meta.transform.a ∧
    (add_rows_or_cols ary isRows n isEnd fill meta).2.transform.b = meta.transform.b ∧
    (add_rows_or_cols ary isRows n isEnd fill meta).2.transform.d = meta.transform.d ∧
    (add_rows_or_cols ary isRows n isEnd fill meta).2.transform.e = meta.transform.e ∧
    (add_rows_or_cols ary isRows n isEnd fill meta).2.dtype = meta.dtype := by
  rw [add_rows_or_cols_eq]
  exact ⟨rfl, rfl, hb.symm, hd.symm, by rw [he], rfl⟩

/-- Witness for `cellsize_survives_expansion` at the spec's 4x4 example. -/
theorem cellsize_survives_expansion_witness :
    meta4.transform.b = 0 ∧ meta4.transform.d = 0 ∧
    meta4.transform.e = -meta4.transform.a ∧
    ((add_rows_or_cols grid4 false 3 false 9 meta4).2.transform.a = meta4.transform.a ∧
     (add_rows_or_cols grid4 false 3 false 9 meta4).2.transform.e = -meta4.transform.a ∧
     (add_rows_or_cols grid4 false 3 false 9 meta4).2.transform.b = meta4.transform.b ∧
     (add_rows_or_cols grid4 false 3 false 9 meta4).2.transform.d = meta4.transform.d ∧
     (add_rows_or_cols grid4 false 3 false 9 meta4).2.transform.e = meta4.transform.e ∧
     (add_rows_or_cols grid4 false 3 false 9 meta4).2.dtype = meta4.dtype) :=
  ⟨rfl, rfl, by decide,
   cellsize_survives_expansion grid4 false 3 false 9 meta4 rfl rfl (by decide)⟩

/-- C7: the spec's concrete scenario: 4x4 grid of 1s, cell size 10, bounds
(0,0)-(40,40); adding 2 rows at the end with fill -128 gives a 6x4 grid
whose last two rows are all -128, minimum Y bound -20, maximum Y bound 40,
cell size 10. -/
theorem concrete_scenario_two_rows_south :
    shape0 (add_rows_or_cols grid4 true 2 true (-128) meta4).1 = 6 ∧
    shape1 (add_rows_or_cols grid4 true 2 true (-128) meta4).1 = 4 ∧
    (add_rows_or_cols grid4 true 2 true (-128) meta4).1.drop 4 =
      List.replicate 2 (List.replicate 4 (-128 : Int)) ∧
    (add_rows_or_cols grid4 true 2 true (-128) meta4).2.transform.f -
        (add_rows_or_cols grid4 true 2 true (-128) meta4).2.transform.a *
          (add_rows_or_cols grid4 true 2 true (-128) meta4).2.height = -20 ∧
    (add_rows_or_cols grid4 true 2 true (-128) meta4).2.transform.f = 40 ∧
    (add_rows_or_cols grid4 true 2 true (-128) meta4).2.transform.a = 10 := by
  rw [add_rows_end_eq]
  have h6 : shape0 ((fun g => insertRow g true (-128 : Int))^[2] grid4) = 6 := by
    decide
  refine ⟨h6, by decide, by decide, ?_, rfl, rfl⟩
  rw [h6]
  norm_num [meta4]

lemma add_meta_matches_shape (ary : Grid) (isRows : Bool) (n : Nat)
    (isEnd : Bool) (fill : Int) (meta : Meta) :
    (add_rows_or_cols ary isRows n isEnd fill meta).2.width =
        shape1 (add_rows_or_cols ary isRows n isEnd fill meta).1 ∧
      (add_rows_or_cols ary isRows n isEnd fill meta).2.height =
        shape0 (add_rows_or_cols ary isRows n isEnd fill meta).1 := by
  rw [add_rows_or_cols_eq]
  exact ⟨rfl, rfl⟩

/-- C5: after any non-empty sequence of `add_rows_or_cols` calls, the
metadata returned by the last call records exactly the returned grid's
column and row counts. -/
theorem width_height_consistent_after_sequence (calls : List Call)
    (g : Grid) (m : Meta) (h : calls ≠ []) :
    (runCalls calls g m).2.width = shape1 (runCalls calls g m).1 ∧
      (runCalls calls g m).2.height = shape0 (runCalls calls g m).1 := by
  rcases List.eq_nil_or_concat calls with hnil | ⟨L, c, rfl⟩
  · exact absurd hnil h
  · unfold runCalls
    rw [List.concat_eq_append, List.foldl_append, List.foldl_cons,
      List.foldl_nil]
    exact add_meta_matches_shape _ _ _ _ _ _

/-- Witness for `width_height_consistent_after_sequence` on a two-call
sequence over the spec's 4x4 example. -/
theorem width_height_consistent_after_sequence_witness :
    ([Call.mk true 2 true (-128), Call.mk false 1 false 0] : List Call) ≠ [] ∧
    ((runCalls [Call.mk true 2 true (-128), Call.mk false 1 false 0] grid4 meta4).2.width =
        shape1 (runCalls [Call.mk true 2 true (-128), Call.mk false 1 false 0] grid4 meta4).1 ∧
      (runCalls [Call.mk true 2 true (-128), Call.mk false 1 false 0] grid4 meta4).2.height =
        shape0 (runCalls [Call.mk true 2 true (-128), Call.mk false 1 false 0] grid4 meta4).1) :=
  ⟨by decide,
   width_height_consistent_after_sequence
     [Call.mk true 2 true (-128), Call.mk false 1 false 0] grid4 meta4 (by decide)⟩

/-- C6 counterexample: on the 1x1 grid, one row at the end with fill 5
then one column at the end with fill 7 gives a different result from the
columns-first order: the corner cell is 7 in the first order and 5 in the
second, so the claim fails for requests with distinct fill values. -/
theorem rows_then_cols_differs_from_cols_then_rows :
    ¬ (add_rows_or_cols (add_rows_or_cols gridC true 1 true 5 metaC).1 false 1
          true 7 (add_rows_or_cols gridC true 1 true 5 metaC).2 =
        add_rows_or_cols (add_rows_or_cols gridC false 1 true 7 metaC).1 true 1
          true 5 (add_rows_or_cols gridC false 1 true 7 metaC).2) := by
  decide

lemma replicate_concat (w : Nat) (v : Int) :
    List.replicate w v ++ [v] = v :: List.replicate w v := by
  rw [← List.replicate_succ', List.replicate_succ]

lemma insertRow_insertCol_comm (g : Grid) (e1 e2 : Bool) (v : Int)
    (h : g ≠ []) :
    insertCol (insertRow g e1 v) e2 v = insertRow (insertCol g e2 v) e1 v := by
  cases g with
  | nil => exact absurd rfl h
  | cons r t =>
      cases e1 <;> cases e2 <;>
        simp [insertRow, insertCol, shape1, replicate_concat,
          List.replicate_succ]

lemma iterate_insertCol_insertRow_comm (e1 e2 : Bool) (v : Int) (k : Nat) :
    ∀ g : Grid, g ≠ [] →
      (fun g => insertCol g e2 v)^[k] (insertRow g e1 v) =
        insertRow ((fun g => insertCol g e2 v)^[k] g) e1 v := by
  induction k with
  | zero => intro g _; rfl
  | succ k ih =>
      intro g h
      rw [Function.iterate_succ_apply', Function.iterate_succ_apply', ih g h,
        insertRow_insertCol_comm _ e1 e2 v (iterate_insertCol_ne_nil e2 v k g h)]

lemma iterate_row_col_comm (e1 e2 : Bool) (v : Int) (n k : Nat) (g : Grid)
    (h : g ≠ []) :
    (fun g => insertCol g e2 v)^[k] ((fun g => insertRow g e1 v)^[n] g) =
      (fun g => insertRow g e1 v)^[n] ((fun g => insertCol g e2 v)^[k] g) := by
  induction n with
  | zero => rfl
  | succ n ih =>
      rw [Function.iterate_succ_apply',
        iterate_insertCol_insertRow_comm e1 e2 v k _
          (iterate_insertRow_ne_nil e1 v n g h),
        ih]
      exact (Function.iterate_succ_apply' (fun g => insertRow g e1 v) n
        ((fun g => insertCol g e2 v)^[k] g)).symm

/-- C6 amended: when the two requests use the same fill value and the
grid is non-empty, expanding rows then columns equals expanding columns
then rows, in both the final grid and the final metadata. -/
theorem rows_cols_commute_same_fill (g : Grid) (m : Meta) (n k : Nat)
    (e1 e2 : Bool) (v : Int) (h : g ≠ []) :
    add_rows_or_cols (add_rows_or_cols g true n e1 v m).1 false k e2 v
        (add_rows_or_cols g true n e1 v m).2 =
      add_rows_or_cols (add_rows_or_cols g false k e2 v m).1 true n e1 v
        (add_rows_or_cols g false k e2 v m).2 := by
  cases e1 <;> cases e2 <;>
    simp only [add_rows_end_eq, add_rows_start_eq, add_cols_end_eq,
      add_cols_start_eq] <;>
    rw [iterate_row_col_comm _ _ v n k g h]

/-- Witness for `rows_cols_commute_same_fill` with shared fill value 3. -/
theorem rows_cols_commute_same_fill_witness :
    gridC ≠ ([] : Grid) ∧
    add_rows_or_cols (add_rows_or_cols gridC true 1 true 3 metaC).1 false 1
        true 3 (add_rows_or_cols gridC true 1 true 3 metaC).2 =
      add_rows_or_cols (add_rows_or_cols gridC false 1 true 3 metaC).1 true 1
        true 3 (add_rows_or_cols gridC false 1 true 3 metaC).2 :=
  ⟨by decide, rows_cols_commute_same_fill gridC metaC 1 1 true true 3 (by decide)⟩

/-- C2: the validation line reads `dimensions['rows']` and (when the row
delta matches) `dimensions['columns']` unconditionally, so a plan with
exactly one axis raises `KeyError` for the absent key instead of
validating only the present axis and writing the output. -/
theorem single_axis_plan_raises_keyerror :
    update_extent (some ⟨2, true, 0⟩, none) (Ary.mk grid4 "int8") meta4 =
        Outcome.keyError "columns" ∧
      update_extent (none, some ⟨1, true, 0⟩) (Ary.mk grid4 "int8") meta4 =
        Outcome.keyError "rows" := by
  constructor <;> decide

lemma add_dtype (ary : Grid) (isRows : Bool) (n : Nat) (isEnd : Bool)
    (fill : Int) (meta : Meta) :
    (add_rows_or_cols ary isRows n isEnd fill meta).2.dtype = meta.dtype := by
  rw [add_rows_or_cols_eq]

lemma add_shape0_rows (ary : Grid) (n : Nat) (e : Bool) (fill : Int)
    (meta : Meta) :
    shape0 (add_rows_or_cols ary true n e fill meta).1 = shape0 ary + n := by
  cases e
  · rw [add_rows_start_eq]; exact shape0_iterate_insertRow false fill n ary
  · rw [add_rows_end_eq]; exact shape0_iterate_insertRow true fill n ary

lemma add_shape1_rows (ary : Grid) (n : Nat) (e : Bool) (fill : Int)
    (meta : Meta) :
    shape1 (add_rows_or_cols ary true n e fill meta).1 = shape1 ary := by
  cases e
  · rw [add_rows_start_eq]; exact shape1_iterate_insertRow false fill n ary
  · rw [add_rows_end_eq]; exact shape1_iterate_insertRow true fill n ary

lemma add_shape0_cols (ary : Grid) (n : Nat) (e : Bool) (fill : Int)
    (meta : Meta) :
    shape0 (add_rows_or_cols ary false n e fill meta).1 = shape0 ary := by
  cases e
  · rw [add_cols_start_eq]; exact shape0_iterate_insertCol false fill n ary
  · rw [add_cols_end_eq]; exact shape0_iterate_insertCol true fill n ary

lemma add_shape1_cols (ary : Grid) (n : Nat) (e : Bool) (fill : Int)
    (meta : Meta) (h : ary ≠ []) :
    shape1 (add_rows_or_cols ary false n e fill meta).1 = shape1 ary + n := by
  cases e
  · rw [add_cols_start_eq]; exact shape1_iterate_insertCol false fill n ary h
  · rw [add_cols_end_eq]; exact shape1_iterate_insertCol true fill n ary h

lemma add_rows_ne_nil (ary : Grid) (n : Nat) (e : Bool) (fill : Int)
    (meta : Meta) (h : ary ≠ []) :
    (add_rows_or_cols ary true n e fill meta).1 ≠ [] := by
  cases e
  · rw [add_rows_start_eq]; exact iterate_insertRow_ne_nil false fill n ary h
  · rw [add_rows_end_eq]; exact iterate_insertRow_ne_nil true fill n ary h

lemma expandPlan_shape0 (r c : Req) (ary : Ary) (meta : Meta) :
    shape0 (expandPlan (some r, some c) ary meta).1.data =
      shape0 ary.data + r.toAdd := by
  simp only [expandPlan]
  rw [add_shape0_cols, add_shape0_rows]

lemma expandPlan_shape1 (r c : Req) (ary : Ary) (meta : Meta)
    (h : ary.data ≠ []) :
    shape1 (expandPlan (some r, some c) ary meta).1.data =
      shape1 ary.data + c.toAdd := by
  simp only [expandPlan]
  rw [add_shape1_cols _ _ _ _ _ (add_rows_ne_nil _ _ _ _ _ h), add_shape1_rows]

lemma expandPlan_dtype_grid (r c : Req) (ary : Ary) (meta : Meta) :
    (expandPlan (some r, some c) ary meta).1.dtype = ary.dtype := rfl

lemma expandPlan_dtype_meta (r c : Req) (ary : Ary) (meta : Meta) :
    (expandPlan (some r, some c) ary meta).2.dtype = meta.dtype := by
  simp only [expandPlan]
  rw [add_dtype, add_dtype]

lemma update_extent_two_axes_valid (r c : Req) (ary : Ary) (meta : Meta)
    (h : ary.data ≠ []) :
    update_extent (some r, some c) ary meta =
      reconcile_dtype (expandPlan (some r, some c) ary meta) := by
  simp only [update_extent, planSize]
  rw [expandPlan_shape0, expandPlan_shape1 _ _ _ _ h]
  push_cast
  simp

/-- C8: on a valid two-axis run whose declared dtype disagrees with the
grid's runtime dtype, a declared dtype outside {int8, int16, int32} aborts
the run naming exactly that dtype and nothing is written, while a declared
dtype in that set has the expanded grid coerced to it before writing. -/
theorem dtype_reconciliation_on_write (r c : Req) (ary : Ary) (meta : Meta)
    (hwf : WF ary.data meta) (hne : meta.dtype ≠ ary.dtype) :
    (meta.dtype ≠ "int8" → meta.dtype ≠ "int16" → meta.dtype ≠ "int32" →
      update_extent (some r, some c) ary meta =
        Outcome.exitUnsupportedDtype meta.dtype) ∧
    (meta.dtype = "int8" →
      update_extent (some r, some c) ary meta =
        Outcome.written (astype 8 (expandPlan (some r, some c) ary meta).1)
          (expandPlan (some r, some c) ary meta).2) ∧
    (meta.dtype = "int16" →
      update_extent (some r, some c) ary meta =
        Outcome.written (astype 16 (expandPlan (some r, some c) ary meta).1)
          (expandPlan (some r, some c) ary meta).2) ∧
    (meta.dtype = "int32" →
      update_extent (some r, some c) ary meta =
        Outcome.written (astype 32 (expandPlan (some r, some c) ary meta).1)
          (expandPlan (some r, some c) ary meta).2) := by
  have hnil : ary.data ≠ [] :=
    List.ne_nil_of_length_pos hwf.2.2.2.2.2.2.1
  have hmain := update_extent_two_axes_valid r c ary meta hnil
  have hd1 := expandPlan_dtype_grid r c ary meta
  have hd2 := expandPlan_dtype_meta r c ary meta
  refine ⟨fun h8 h16 h32 => ?_, fun h8 => ?_, fun h16 => ?_, fun h32 => ?_⟩ <;>
    rw [hmain] <;>
    simp_all [reconcile_dtype]

/-- Witness for `dtype_reconciliation_on_write`: declared `int16`,
runtime `float64`. -/
theorem dtype_reconciliation_on_write_witness :
    WF grid4 (Meta.mk ⟨10, 0, 0, 0, -10, 40⟩ 4 4 "int16") ∧
    (Meta.mk ⟨10, 0, 0, 0, -10, 40⟩ 4 4 "int16").dtype ≠
      (Ary.mk grid4 "float64").dtype ∧
    update_extent (some ⟨1, true, 0⟩, some ⟨1, true, 0⟩) (Ary.mk grid4 "float64")
        (Meta.mk ⟨10, 0, 0, 0, -10, 40⟩ 4 4 "int16") =
      Outcome.written
        (astype 16
          (expandPlan (some ⟨1, true, 0⟩, some ⟨1, true, 0⟩) (Ary.mk grid4 "float64")
            (Meta.mk ⟨10, 0, 0, 0, -10, 40⟩ 4 4 "int16")).1)
        (expandPlan (some ⟨1, true, 0⟩, some ⟨1, true, 0⟩) (Ary.mk grid4 "float64")
          (Meta.mk ⟨10, 0, 0, 0, -10, 40⟩ 4 4 "int16")).2 :=
  ⟨by decide, by decide,
   (dtype_reconciliation_on_write ⟨1, true, 0⟩ ⟨1, true, 0⟩
       (Ary.mk grid4 "float64") (Meta.mk ⟨10, 0, 0, 0, -10, 40⟩ 4 4 "int16")
       (by decide) (by decide)).2.2.1 rfl⟩

/-- C9: an empty plan ends the run cleanly before the raster is read or
expanded: the outcome is `exitNoPlan` for every input, and in particular
no output is written. -/
theorem empty_plan_exits_cleanly (ary : Ary) (meta : Meta) :
    update_extent (none, none) ary meta = Outcome.exitNoPlan ∧
      ∀ a m, update_extent (none, none) ary meta ≠ Outcome.written a m := by
  refine ⟨rfl, fun a m h => ?_⟩
  exact Outcome.noConfusion h

/-- C10: `add_rows_or_cols` updates the caller's metadata dictionary in
place: the metadata reference it returns is the very reference it was
passed, and after the call the store holds the updated metadata behind
the caller's original reference, so the update is visible even if the
returned reference is discarded. -/
theorem meta_updated_in_place (ary : Grid) (isRows : Bool) (n : Nat)
    (isEnd : Bool) (fill : Int) (store : Store) (r : Nat) :
    (add_rows_or_cols_ref ary isRows n isEnd fill store r).1.2 = r ∧
    (add_rows_or_cols_ref ary isRows n isEnd fill store r).2 r =
      (add_rows_or_cols ary isRows n isEnd fill (store r)).2 ∧
    (add_rows_or_cols_ref ary isRows n isEnd fill store r).1.1 =
      (add_rows_or_cols ary isRows n isEnd fill (store r)).1 := by
  refine ⟨rfl, ?_, rfl⟩
  simp [add_rows_or_cols_ref, Function.update_same]

end ExpandRaster
